import Mathlib

/-!
Verification of the certificate renewal proof-of-concept (poc/eca-poc).

The definitions below are a shallow embedding of the Python sources under
src/poc/eca-poc/src: config.py, certificate_monitor.py, renewal_service.py,
crl_manager.py, est_client.py and step_ca_client.py.  Wall-clock instants are
UTC timestamps in whole seconds (Int); file contents are byte lists; the file
system, the HTTP layer and the step CLI sub-process are explicit parameters,
so that each function is a pure transcription of the corresponding Python
function body.
-/

namespace EcaPoc

/-- File contents as raw bytes. -/
abbrev Bytes := List Nat

/-- The file system visible to the renewal clients: a map from path to the
bytes currently stored there (`none` when the file does not exist). -/
abbrev FS := String → Option Bytes

/-- Writing a file: the result of `open(p, "wb").write(b)`. -/
def FS.update (fs : FS) (p : String) (b : Bytes) : FS :=
  fun q => if q = p then some b else fs q

/-- Deleting a file: the result of `os.remove(p)`. -/
def FS.erase (fs : FS) (p : String) : FS :=
  fun q => if q = p then none else fs q

/-- Point update of a string-keyed dictionary (`d[k] = v`). -/
def updateMap {α : Type} (m : String → Option α) (k : String) (v : α) :
    String → Option α :=
  fun q => if q = k then some v else m q

/-! ## config.py -/

/-- `CertificateConfig` exactly as declared in config.py: the per-certificate
renewal setting it carries is `renewal_threshold_percent` (an optional
percentage of lifetime); the class declares no day-count field. -/
structure CertificateConfig where
  name : String
  cert_path : String
  key_path : String
  renewal_threshold_percent : Option Rat := none
  subject : String
  sans : List String := []

/-- The monitor reads three service-level attributes through `getattr` with
defaults (certificate_monitor.py lines 88-90 and 110): the fields below hold
the values those lookups resolve to.  `ServiceConfig` in config.py declares
none of the three, but it accepts extra keys, so the emergency and warning
bounds default to 7 and 14 and `default_renewal_threshold_days` is a present
or absent attribute (`hasattr`), modelled as an `Option`. -/
structure ServiceCtx where
  emergency_renewal_threshold_days : Int := 7
  warning_threshold_days : Int := 14
  default_renewal_threshold_days : Option Int := none

/-! ## certificate_monitor.py -/

/-- The fields of a parsed x509 certificate that the monitor and the CRL
manager read: validity window (UTC seconds), serial number, and the CRL
distribution point URLs, in certificate order. -/
structure ParsedCert where
  notBefore : Int
  notAfter : Int
  serialNumber : Nat
  cdpUrls : List String
  deriving DecidableEq

/-- Revocation verdict (`RevocationStatus` dataclass in crl_manager.py).
`checkTime` is the wall-clock stamp taken when the status is built. -/
structure RevocationStatus where
  is_revoked : Bool
  revocation_date : Option Int := none
  revocation_reason : Option String := none
  crl_source : Option String := none
  checkTime : Int := 0
  deriving DecidableEq

/-- `CertificateStatus` dataclass of certificate_monitor.py.  The renewal
reason is the literal string the code assigns. -/
structure CertificateStatus where
  name : String
  cert_path : String
  is_valid : Bool
  expires_at : Option Int
  days_until_expiry : Option Int
  needs_renewal : Bool
  renewal_threshold_days : Int := 30
  renewal_reason : String := "valid"
  is_revoked : Bool := false
  revocation_info : Option RevocationStatus := none
  error_message : Option String := none
  deriving DecidableEq

/-- `(expires_at - now).days` in Python: floor division of the signed
difference in seconds by 86400 (timedelta normalizes toward minus infinity),
so an expired certificate yields a negative day count. -/
def daysUntilExpiry (notAfter now : Int) : Int :=
  (notAfter - now).fdiv 86400

/-- Result tuple of `check_certificate_expiry`. -/
structure ExpiryCheck where
  expires_at : Int
  days_until_expiry : Int
  needs_renewal : Bool
  renewal_reason : String
  deriving DecidableEq

/-- `CertificateMonitor.check_certificate_expiry` (lines 74-101): computes the
day count to expiry, the time-based renewal decision, and the urgency label.
The service config is optional because the monitor may be built without one. -/
def check_certificate_expiry (svc : Option ServiceCtx) (now : Int)
    (cert : ParsedCert) (renewal_threshold_days : Int) : ExpiryCheck :=
  let expires_at := cert.notAfter
  let days := daysUntilExpiry cert.notAfter now
  let needs_renewal : Bool := decide (days ≤ renewal_threshold_days)
  let renewal_reason : String :=
    match svc with
    | some s =>
      if days ≤ s.emergency_renewal_threshold_days then "emergency"
      else if days ≤ s.warning_threshold_days then
        (if needs_renewal then "warning" else "approaching")
      else (if needs_renewal then "normal" else "valid")
    | none => if needs_renewal then "normal" else "valid"
  ⟨expires_at, days, needs_renewal, renewal_reason⟩

/-- `CertificateMonitor.get_effective_renewal_threshold` (lines 103-114).  The
function dereferences `cert_config.renewal_threshold_days`; the value that
attribute lookup produces is passed here explicitly (see
`renewal_threshold_days_attr` for what it produces on the declared
`CertificateConfig`).  When it is absent the service attribute
`default_renewal_threshold_days` is used if present, else the hardcoded 30. -/
def get_effective_renewal_threshold (svc : Option ServiceCtx)
    (certThresholdDays : Option Int) : Int :=
  match certThresholdDays with
  | some d => d
  | none =>
    match svc with
    | some s =>
      match s.default_renewal_threshold_days with
      | some d => d
      | none => 30
    | none => 30

/-- The attribute lookup `cert_config.renewal_threshold_days` as Python
resolves it on the `CertificateConfig` class of config.py: the class declares
no such field and pydantic ignores extra inputs, so the access raises
`AttributeError`.  (The field the class does declare,
`renewal_threshold_percent`, is never read by certificate_monitor.py.) -/
def renewal_threshold_days_attr (_ : CertificateConfig) :
    Except String (Option Int) :=
  Except.error "AttributeError"

/-- `get_effective_renewal_threshold` applied to an actual
`CertificateConfig` value, with the attribute access evaluated under Python
semantics: it raises before any threshold can be computed. -/
def get_effective_renewal_threshold_py (svc : Option ServiceCtx)
    (c : CertificateConfig) : Except String Int :=
  match renewal_threshold_days_attr c with
  | Except.error e => Except.error e
  | Except.ok d => Except.ok (get_effective_renewal_threshold svc d)

/-- Modelled from the spec: the effective-threshold rule of section 4.3 step 4
(missing from certificate_monitor.py, which never reads the percent field).
If the per-certificate setting is a percent p, convert to days as p percent of
the lifetime not_after - not_before; else use the per-certificate day count
directly; else the service default. -/
def spec_effective_threshold_days (serviceDefault : Int)
    (certPercent : Option Rat) (certDays : Option Int)
    (notBefore notAfter : Int) : Int :=
  match certPercent with
  | some p => (p * (((notAfter - notBefore : Int) : Rat) / 86400) / 100).floor
  | none =>
    match certDays with
    | some d => d
    | none => serviceDefault

/-- `CertificateMonitor.check_certificate_status` (lines 149-263), evaluated
under Python semantics for the repository's own `CertificateConfig`.
Parameters stand for the effects the method performs: `crlManagerPresent` is
`self.crl_manager is not None`; `revCheck` is the oracle for
`self.crl_manager.check_certificate_revocation`; `loaded` is the result of
`self.load_certificate(cert_config.cert_path)`.  On load failure the method
evaluates `get_effective_renewal_threshold(cert_config)` at line 164,
outside any try, so the `AttributeError` from the `renewal_threshold_days`
lookup (`renewal_threshold_days_attr`) propagates; with a loaded
certificate the same lookup raises at line 172 inside the try, the handler
at line 249 catches it, and the handler itself repeats the lookup at line
260, whose `AttributeError` propagates out of the method.  The
status-building branches that follow a successful lookup are transcribed as
written, although with the declared `CertificateConfig` they are
unreachable. -/
def check_certificate_status (svc : Option ServiceCtx) (now : Int)
    (crlManagerPresent : Bool) (revCheck : ParsedCert → RevocationStatus)
    (cfg : CertificateConfig) (loaded : Option ParsedCert) :
    Except String CertificateStatus :=
  match loaded with
  | none =>
    match renewal_threshold_days_attr cfg with
    | Except.error e => Except.error e
    | Except.ok d =>
      Except.ok
        { name := cfg.name, cert_path := cfg.cert_path, is_valid := false,
          expires_at := none, days_until_expiry := none, needs_renewal := true,
          renewal_threshold_days := get_effective_renewal_threshold svc d,
          renewal_reason := "error", is_revoked := false,
          revocation_info := none,
          error_message := some "Failed to load certificate" }
  | some cert =>
    match renewal_threshold_days_attr cfg with
    | Except.error e =>
      match renewal_threshold_days_attr cfg with
      | Except.error e2 => Except.error e2
      | Except.ok d2 =>
        Except.ok
          { name := cfg.name, cert_path := cfg.cert_path, is_valid := false,
            expires_at := none, days_until_expiry := none,
            needs_renewal := true,
            renewal_threshold_days := get_effective_renewal_threshold svc d2,
            renewal_reason := "error", is_revoked := false,
            revocation_info := none,
            error_message := some ("Error checking certificate: " ++ e) }
    | Except.ok d =>
      let renewal_threshold := get_effective_renewal_threshold svc d
      let ec := check_certificate_expiry svc now cert renewal_threshold
      let is_time_valid : Bool := decide (cert.notBefore ≤ now ∧ now ≤ cert.notAfter)
      let revocation_info : Option RevocationStatus :=
        if crlManagerPresent && is_time_valid then some (revCheck cert) else none
      let is_revoked : Bool :=
        match revocation_info with
        | some ri => ri.is_revoked
        | none => false
      Except.ok
        { name := cfg.name, cert_path := cfg.cert_path,
          is_valid := is_time_valid && !is_revoked,
          expires_at := some ec.expires_at,
          days_until_expiry := some ec.days_until_expiry,
          needs_renewal := ec.needs_renewal || is_revoked,
          renewal_threshold_days := renewal_threshold,
          renewal_reason := ec.renewal_reason,
          is_revoked := is_revoked, revocation_info := revocation_info,
          error_message := none }

/-! ## renewal_service.py -/

/-- Outcome of one renewal attempt inside
`CertificateRenewalService.check_and_renew_certificates` (lines 98-121):
renew succeeded and the new certificate verified; renew succeeded but
verification failed; renew returned failure; or an exception escaped. -/
inductive RenewalOutcome where
  | renewedVerified
  | renewedUnverified
  | renewFailed
  | exception (msg : String)
  deriving DecidableEq

/-- The in-place mutation `check_and_renew_certificates` applies to a status
after attempting renewal (lines 98-121).  It touches only `needs_renewal`
and `error_message`; `renewal_reason` is never updated. -/
def updateStatusAfterRenewal (s : CertificateStatus) (o : RenewalOutcome) :
    CertificateStatus :=
  match o with
  | RenewalOutcome.renewedVerified =>
    { s with needs_renewal := false, error_message := none }
  | RenewalOutcome.renewedUnverified =>
    { s with error_message := some "Certificate verification failed after renewal" }
  | RenewalOutcome.renewFailed =>
    { s with error_message := some "Certificate renewal failed" }
  | RenewalOutcome.exception m =>
    { s with error_message := some ("Exception during certificate renewal: " ++ m) }

/-! ## crl_manager.py -/

/-- One entry of a parsed CRL: serial number, UTC revocation date, and the
value of the CRL Reason extension when present. -/
structure RevokedEntry where
  serialNumber : Nat
  revocationDate : Int
  reasonExt : Option String
  deriving DecidableEq

/-- A parsed certificate revocation list: the iterable of revoked entries in
CRL order. -/
structure CRL where
  entries : List RevokedEntry
  deriving DecidableEq

/-- The mutable per-manager state `refresh_crl` reads and writes: the
in-memory parsed-CRL dictionary `_crl_cache` and the per-URL
`_last_download_time` map.  (The `_crl_info_cache` bookkeeping is omitted:
it is consulted only by `_should_refresh_crl` and the status report, which
no modelled path reaches.) -/
structure CRLMState where
  crlCache : String → Option CRL
  lastDownloadTime : String → Option Int

/-- Result of one `refresh_crl` call: the returned CRL (or None), the manager
state after the call, and whether the call reached the network
(`download_crl` was invoked). -/
structure RefreshResult where
  crl : Option CRL
  state : CRLMState
  networkAttempted : Bool

/-- The download-and-fallback tail of `CRLManager.refresh_crl`
(lines 243-298), entered whenever the 60-second coalescing window does not
serve the call from memory.  `net` is the outcome of `download_crl` (None on
any network error or empty body); `parse` is the PEM-then-DER CRL parser
applied to downloaded bytes; `fileCrl` is what `load_crl_from_file` yields
for the cache file of this URL. -/
def refresh_crl_download (parse : Bytes → Option CRL) (net : Option Bytes)
    (fileCrl : Option CRL) (st : CRLMState) (url : String) (now : Int) :
    RefreshResult :=
  match net with
  | none =>
    match st.crlCache url with
    | some crl => ⟨some crl, st, true⟩
    | none =>
      match fileCrl with
      | some crl =>
        ⟨some crl, { st with crlCache := updateMap st.crlCache url crl }, true⟩
      | none => ⟨none, st, true⟩
  | some data =>
    let st1 := { st with lastDownloadTime := updateMap st.lastDownloadTime url now }
    match parse data with
    | some crl =>
      ⟨some crl, { st1 with crlCache := updateMap st1.crlCache url crl }, true⟩
    | none =>
      match fileCrl with
      | some crl =>
        ⟨some crl, { st1 with crlCache := updateMap st1.crlCache url crl }, true⟩
      | none => ⟨none, st1, true⟩

/-- `CRLManager.refresh_crl` (lines 228-298).  If the URL was downloaded less
than 60 seconds ago and the parsed CRL is still in the in-memory cache, it is
returned without touching the network; otherwise the download path runs. -/
def refresh_crl (parse : Bytes → Option CRL) (net : Option Bytes)
    (fileCrl : Option CRL) (st : CRLMState) (url : String) (now : Int) :
    RefreshResult :=
  match st.lastDownloadTime url with
  | some t =>
    if now - t < 60 then
      match st.crlCache url with
      | some crl => ⟨some crl, st, false⟩
      | none => refresh_crl_download parse net fileCrl st url now
    else refresh_crl_download parse net fileCrl st url now
  | none => refresh_crl_download parse net fileCrl st url now

/-- The `for crl_url in crl_urls` loop of
`CRLManager.check_certificate_revocation` (lines 348-394), threading the
manager state through the per-URL `refresh_crl` calls.  `net` and `fileCrl`
give the download and cache-file outcome per URL.  Returns the revocation
status, the final manager state, and the list of URLs consulted (each URL
for which `refresh_crl` ran), in order: a URL whose CRL cannot be obtained is
skipped, and the first CRL containing the serial number short-circuits the
loop. -/
def checkCrlLoop (parse : Bytes → Option CRL) (net : String → Option Bytes)
    (fileCrl : String → Option CRL) (now : Int) (serial : Nat) :
    CRLMState → List String → RevocationStatus × CRLMState × List String
  | st, [] => (⟨false, none, none, none, now⟩, st, [])
  | st, u :: rest =>
    let r := refresh_crl parse (net u) (fileCrl u) st u now
    match r.crl with
    | none =>
      let rr := checkCrlLoop parse net fileCrl now serial r.state rest
      (rr.1, rr.2.1, u :: rr.2.2)
    | some crl =>
      match crl.entries.find? (fun e => e.serialNumber == serial) with
      | some e =>
        (⟨true, some e.revocationDate, some (e.reasonExt.getD "Unspecified"),
          some u, now⟩, r.state, [u])
      | none =>
        let rr := checkCrlLoop parse net fileCrl now serial r.state rest
        (rr.1, rr.2.1, u :: rr.2.2)

/-- `CRLManager.check_certificate_revocation` (lines 324-394).  The source
collects the configured URLs and the CDP URLs of the certificate into a
Python `set` and iterates over it; `order` is the sequence that set iteration
yields, constrained by `isEnumOf` in the theorems below.  With CRL checking
disabled (or an empty set, i.e. `order = []`) the verdict is not revoked. -/
def check_certificate_revocation (parse : Bytes → Option CRL)
    (net : String → Option Bytes) (fileCrl : String → Option CRL)
    (crl_enabled : Bool) (cert : ParsedCert) (order : List String)
    (st : CRLMState) (now : Int) :
    RevocationStatus × CRLMState × List String :=
  if crl_enabled = false then (⟨false, none, none, none, now⟩, st, [])
  else checkCrlLoop parse net fileCrl now cert.serialNumber st order

/-- `order` is a possible iteration sequence of the Python set
`set(config.crl_urls) ∪ set(cdp_urls)`: no duplicates, and exactly the
elements of the two url lists. -/
def isEnumOf (order configUrls cdpUrls : List String) : Prop :=
  order.Nodup ∧ (∀ u ∈ order, u ∈ configUrls ∨ u ∈ cdpUrls) ∧
    (∀ u ∈ configUrls, u ∈ order) ∧ (∀ u ∈ cdpUrls, u ∈ order)

instance (order configUrls cdpUrls : List String) :
    Decidable (isEnumOf order configUrls cdpUrls) := by
  unfold isEnumOf; infer_instance

/-- The CRL a single URL would yield against a given manager state (the
`.crl` component of `refresh_crl` for that URL). -/
def urlLoaded (parse : Bytes → Option CRL) (net : String → Option Bytes)
    (fileCrl : String → Option CRL) (st : CRLMState) (now : Int)
    (u : String) : Option CRL :=
  (refresh_crl parse (net u) (fileCrl u) st u now).crl

/-- The revoked entry a single URL contributes for a serial number, when its
CRL can be obtained and lists that serial. -/
def urlHitEntry (parse : Bytes → Option CRL) (net : String → Option Bytes)
    (fileCrl : String → Option CRL) (st : CRLMState) (now : Int)
    (serial : Nat) (u : String) : Option RevokedEntry :=
  match urlLoaded parse net fileCrl st now u with
  | some crl => crl.entries.find? (fun e => e.serialNumber == serial)
  | none => none

/-- Whether a single URL provides revocation evidence for a serial number. -/
def urlHit (parse : Bytes → Option CRL) (net : String → Option Bytes)
    (fileCrl : String → Option CRL) (st : CRLMState) (now : Int)
    (serial : Nat) (u : String) : Bool :=
  (urlHitEntry parse net fileCrl st now serial u).isSome

/-- TLS verification setting of the `requests` session. -/
inductive SSLVerify where
  | pinned (path : String)
  | disabled
  deriving DecidableEq

/-- `CRLManager.__init__` (lines 56-67): the session verification is pinned
to `root_cert_path` when the attribute is truthy (non-empty, the field is
always declared) and a file exists at that path; otherwise verification is
disabled.  `pathExists` is `os.path.exists` at construction time. -/
def crl_manager_session_verify (root_cert_path : String)
    (pathExists : String → Bool) : SSLVerify :=
  if root_cert_path ≠ "" ∧ pathExists root_cert_path = true then
    SSLVerify.pinned root_cert_path
  else SSLVerify.disabled

/-- The TLS verification `CRLManager.download_crl` (lines 110-139) performs:
`self.session.get` uses the session object configured once in `__init__`,
and no method of the manager ever mutates `session.verify`. -/
def download_crl_tls_verify (sessionVerify : SSLVerify) : SSLVerify :=
  sessionVerify

/-! ## est_client.py and step_ca_client.py -/

/-- Outcome of an EST HTTPS POST: a response with status code and body, or a
raised exception (network failure and the like). -/
inductive HttpResult where
  | response (status : Nat) (body : Bytes)
  | exception
  deriving DecidableEq

/-- `ESTClient.enroll_certificate` (lines 142-200): on HTTP 200 the response
body is written to the certificate path and the locally generated key to the
key path; on any other status or an exception nothing is written.  `keyPem`
is the freshly generated private key material from `_generate_csr`. -/
def enroll_certificate (fs : FS) (output_cert_path output_key_path : String)
    (keyPem : Bytes) (post : HttpResult) : Bool × FS :=
  match post with
  | HttpResult.exception => (false, fs)
  | HttpResult.response status body =>
    if status = 200 then
      (true, FS.update (FS.update fs output_cert_path body) output_key_path keyPem)
    else (false, fs)

/-- `ESTClient.renew_certificate` (lines 202-264): with no certificate on
disk it falls back to enrollment; otherwise, on HTTP 200 from
`/simplereenroll`, the current certificate bytes are first written to
`cert_path + ".backup"`, then the response body replaces the certificate and
the new key replaces the key; on failure nothing is written. -/
def est_renew_certificate (fs : FS) (cfg : CertificateConfig)
    (keyPemRe keyPemEnroll : Bytes) (rePost enrollPost : HttpResult) :
    Bool × FS :=
  match fs cfg.cert_path with
  | none => enroll_certificate fs cfg.cert_path cfg.key_path keyPemEnroll enrollPost
  | some current_cert_data =>
    match rePost with
    | HttpResult.exception => (false, fs)
    | HttpResult.response status body =>
      if status = 200 then
        let fs1 := FS.update fs (cfg.cert_path ++ ".backup") current_cert_data
        let fs2 := FS.update fs1 cfg.cert_path body
        let fs3 := FS.update fs2 cfg.key_path keyPemRe
        (true, fs3)
      else (false, fs)

/-- Outcome of the `step ca renew` sub-process: on success the CLI rewrites
the certificate file with `newCert`; on failure it writes nothing. -/
structure StepRenewOutcome where
  success : Bool
  newCert : Bytes
  deriving DecidableEq

/-- Outcome of the `step ca certificate` sub-process: on success the CLI
writes the new certificate and key files; on failure it writes nothing. -/
structure StepRequestOutcome where
  success : Bool
  newCert : Bytes
  newKey : Bytes
  deriving DecidableEq

/-- `StepCAClient._request_certificate_jwk` (lines 197-222): fails without a
provisioner token; otherwise the `step ca certificate` invocation writes the
output files exactly when it succeeds. -/
def request_certificate_jwk (fs : FS) (tokenOk : Bool)
    (output_cert_path output_key_path : String) (req : StepRequestOutcome) :
    Bool × FS :=
  if tokenOk = false then (false, fs)
  else if req.success then
    (true, FS.update (FS.update fs output_cert_path req.newCert) output_key_path req.newKey)
  else (false, fs)

/-- `StepCAClient._renew_certificate_jwk` (lines 235-288): requires both
artifacts on disk; copies them to the two `.backup` sidecars; runs
`step ca renew`; on success deletes both backups; on failure restores both
artifacts from the backups (leaving the backup files in place) and falls
back to a fresh certificate request. -/
def renew_certificate_jwk (fs : FS) (cfg : CertificateConfig)
    (renewOut : StepRenewOutcome) (tokenOk : Bool)
    (req : StepRequestOutcome) : Bool × FS :=
  match fs cfg.cert_path with
  | none => (false, fs)
  | some certBytes =>
    match fs cfg.key_path with
    | none => (false, fs)
    | some keyBytes =>
      let backup_cert_path := cfg.cert_path ++ ".backup"
      let backup_key_path := cfg.key_path ++ ".backup"
      let fs1 := FS.update (FS.update fs backup_cert_path certBytes) backup_key_path keyBytes
      if renewOut.success then
        let fs2 := FS.update fs1 cfg.cert_path renewOut.newCert
        (true, FS.erase (FS.erase fs2 backup_cert_path) backup_key_path)
      else
        let fs2 := FS.update (FS.update fs1 cfg.cert_path certBytes) cfg.key_path keyBytes
        request_certificate_jwk fs2 tokenOk cfg.cert_path cfg.key_path req

/-! ## Concrete fixtures used by witnesses and counterexamples -/

/-- A revocation oracle that never reports revocation. -/
def rev0 : ParsedCert → RevocationStatus := fun _ => ⟨false, none, none, none, 0⟩

/-- A certificate that expired 5 days before epoch 0. -/
def certExpired : ParsedCert := ⟨-7776000, -432000, 1, []⟩

/-- A certificate expiring 5 days after epoch 0. -/
def certSoon : ParsedCert := ⟨-7776000, 432000, 1, []⟩

/-- Service context with the getattr defaults 7 and 14. -/
def svcDefault : ServiceCtx := {}

/-- A file system holding one certificate and one key. -/
def fsWeb : FS := fun p =>
  if p = "certs/web01.crt" then some [1]
  else if p = "certs/web01.key" then some [2]
  else none

/-- A certificate configuration as config.py declares it. -/
def cfgWeb : CertificateConfig :=
  ⟨"web01", "certs/web01.crt", "certs/web01.key", none, "web01.local", []⟩

/-- The same configuration with a 50 percent renewal threshold. -/
def cfgWeb50 : CertificateConfig :=
  { cfgWeb with renewal_threshold_percent := some 50 }

/-- A CRL listing serial 5, revoked at time 100, no reason extension. -/
def crlA : CRL := ⟨[⟨5, 100, none⟩]⟩

/-- A CRL listing serial 5, revoked at time 200, reason keyCompromise. -/
def crlB : CRL := ⟨[⟨5, 200, some "keyCompromise"⟩]⟩

/-- Cache files serving `crlA` for URL a and `crlB` for URL b. -/
def fileAB : String → Option CRL := fun u =>
  if u = "a" then some crlA else if u = "b" then some crlB else none

/-- A network on which every download fails. -/
def netNone : String → Option Bytes := fun _ => none

/-- A parser accepting nothing (no download succeeds anyway). -/
def parseNone : Bytes → Option CRL := fun _ => none

/-- Fresh manager state: both dictionaries empty. -/
def emptyCRLMState : CRLMState := ⟨fun _ => none, fun _ => none⟩

/-- A certificate with serial 5 and one CDP URL b. -/
def certSerial5 : ParsedCert := ⟨0, 10000000, 5, ["b"]⟩

/-- No cache file exists for any URL. -/
def fileNone : String → Option CRL := fun _ => none

/-- A parser accepting exactly the body `[1]`, yielding `crlA`. -/
def parseOne : Bytes → Option CRL := fun b => if b = [1] then some crlA else none

/-! ## Helper lemmas -/

/-- Projection of the day count out of `check_certificate_expiry`. -/
@[simp]
lemma check_certificate_expiry_days (svc : Option ServiceCtx) (now : Int)
    (cert : ParsedCert) (thr : Int) :
    (check_certificate_expiry svc now cert thr).days_until_expiry =
      daysUntilExpiry cert.notAfter now := rfl

/-- Projection of the time-based renewal decision out of
`check_certificate_expiry`. -/
@[simp]
lemma check_certificate_expiry_needs (svc : Option ServiceCtx) (now : Int)
    (cert : ParsedCert) (thr : Int) :
    (check_certificate_expiry svc now cert thr).needs_renewal =
      decide (daysUntilExpiry cert.notAfter now ≤ thr) := rfl

/-! ## Claim C1 -/

/-- Claim C1 (code bug): the claim states what the status-construction
branches of `check_certificate_status` encode, but the method never returns
a status: every call — with or without a loadable certificate —
dereferences the undeclared `renewal_threshold_days` attribute and
propagates `AttributeError` (line 164 on load failure; line 172 and again
line 260 otherwise), so no evaluation ever yields a `needs_renewal` value,
and a load error crashes the check pass instead of producing
`needs_renewal = true`. -/
theorem check_certificate_status_never_returns (svc : Option ServiceCtx)
    (now : Int) (crlP : Bool) (revCheck : ParsedCert → RevocationStatus)
    (cfg : CertificateConfig) (loaded : Option ParsedCert) :
    check_certificate_status svc now crlP revCheck cfg loaded =
      Except.error "AttributeError" := by
  cases loaded <;> rfl

/-! ## Claim C2 -/

/-- Claim C2 counterexample: the certificate that expired 5 days ago loads
and parses, yet `check_certificate_status` raises `AttributeError` (line
172, raised again from the handler at line 260) and assigns no
`renewal_reason` at all — in particular not `expired`; and the
reason-assigning code itself, `check_certificate_expiry` (a unit taking the
day threshold as an integer argument), yields `emergency` for this
certificate: it has no `expired` rung. -/
theorem renewal_reason_expired_counterexample :
    check_certificate_status (some svcDefault) 0 false rev0 cfgWeb
      (some certExpired) = Except.error "AttributeError" ∧
    daysUntilExpiry certExpired.notAfter 0 = -5 ∧
    (check_certificate_expiry (some svcDefault) 0 certExpired 30).renewal_reason
      = "emergency" ∧
    (check_certificate_expiry (some svcDefault) 0 certExpired 30).renewal_reason
      ≠ "expired" :=
  ⟨rfl, by decide, by decide, by decide⟩

/-- Claim C2 as amended: `check_certificate_status` assigns no renewal
reason for any loaded certificate — it raises `AttributeError` before
reaching the ladder.  The ladder `check_certificate_expiry` itself
implements (a unit whose day threshold is an integer argument) is, first
match wins: at most the emergency bound gives `emergency` — in particular
every certificate with a negative day count does, whenever the emergency
bound is nonnegative — then at most the warning bound gives `warning` when
renewal is due and `approaching` otherwise, then `normal` when renewal is
due and `valid` otherwise; it has no `expired` and no `revoked` rung. -/
theorem renewal_reason_ladder (s : ServiceCtx) (now : Int) (cert : ParsedCert)
    (thr : Int) (cfg : CertificateConfig) (crlP : Bool)
    (revCheck : ParsedCert → RevocationStatus) :
    let ec := check_certificate_expiry (some s) now cert thr
    check_certificate_status (some s) now crlP revCheck cfg (some cert) =
      Except.error "AttributeError" ∧
    (ec.days_until_expiry ≤ s.emergency_renewal_threshold_days →
      ec.renewal_reason = "emergency") ∧
    (ec.days_until_expiry < 0 → 0 ≤ s.emergency_renewal_threshold_days →
      ec.renewal_reason = "emergency") ∧
    (s.emergency_renewal_threshold_days < ec.days_until_expiry →
      ec.days_until_expiry ≤ s.warning_threshold_days →
      ec.renewal_reason = (if ec.needs_renewal then "warning" else "approaching")) ∧
    (s.emergency_renewal_threshold_days < ec.days_until_expiry →
      s.warning_threshold_days < ec.days_until_expiry →
      ec.renewal_reason = (if ec.needs_renewal then "normal" else "valid")) ∧
    ec.renewal_reason ≠ "expired" ∧ ec.renewal_reason ≠ "revoked" := by
  simp only [check_certificate_expiry_days, check_certificate_expiry_needs]
  refine ⟨rfl, ?_, ?_, ?_, ?_, ?_, ?_⟩
  · intro h1
    simp [check_certificate_expiry, h1]
  · intro h0 he
    have h1 : daysUntilExpiry cert.notAfter now ≤ s.emergency_renewal_threshold_days := by
      omega
    simp [check_certificate_expiry, h1]
  · intro h1 h2
    have h1x : ¬ daysUntilExpiry cert.notAfter now ≤ s.emergency_renewal_threshold_days := by
      omega
    simp [check_certificate_expiry, h1x, h2]
  · intro h1 h2
    have h1x : ¬ daysUntilExpiry cert.notAfter now ≤ s.emergency_renewal_threshold_days := by
      omega
    have h2x : ¬ daysUntilExpiry cert.notAfter now ≤ s.warning_threshold_days := by
      omega
    simp [check_certificate_expiry, h1x, h2x]
  · simp only [check_certificate_expiry]
    split_ifs <;> decide
  · simp only [check_certificate_expiry]
    split_ifs <;> decide

/-- Witness for C2 as amended: the expired fixture lands in the emergency
branch of the ladder. -/
theorem renewal_reason_ladder_witness :
    (check_certificate_expiry (some svcDefault) 0 certExpired 30).renewal_reason
      = "emergency" :=
  (renewal_reason_ladder svcDefault 0 certExpired 30 cfgWeb false
    rev0).2.2.1 (by decide) (by decide)

/-! ## Claim C5 -/

/-- Claim C5 (code bug): the monitor never consults the declared per
certificate setting `renewal_threshold_percent`.  With the configuration of
`cfgWeb50` (50 percent) on a certificate whose lifetime is exactly 100 days,
the spec threshold is 50 days, but `get_effective_renewal_threshold`
dereferences the undeclared attribute `renewal_threshold_days`, which raises
`AttributeError` under Python semantics for the `CertificateConfig` class of
config.py. -/
theorem renewal_threshold_percent_ignored :
    get_effective_renewal_threshold_py (some svcDefault) cfgWeb50 =
      Except.error "AttributeError" ∧
    renewal_threshold_days_attr cfgWeb50 = Except.error "AttributeError" ∧
    spec_effective_threshold_days 30 (some 50) none 0 8640000 = 50 := by
  refine ⟨rfl, rfl, ?_⟩
  show ((50 : Rat) * (((8640000 - 0 : Int) : Rat) / 86400) / 100).floor = 50
  norm_num
  rfl

/-! ## Claim C9 -/

/-- Claim C9 counterexample: a missing certificate file is an evaluation
error, yet at this concrete input `check_certificate_status` produces no
status at all — it raises `AttributeError` at line 164 — so the evaluation
error does not yield `needs_renewal = true`; a loaded certificate raises
just the same, so no `CertStatus` ever reaches the renewal pass. -/
theorem error_message_reason_counterexample :
    check_certificate_status (some svcDefault) 0 false rev0 cfgWeb none =
      Except.error "AttributeError" ∧
    check_certificate_status (some svcDefault) 0 false rev0 cfgWeb
      (some certSoon) = Except.error "AttributeError" :=
  ⟨rfl, rfl⟩

/-- Claim C9 as amended: the system never produces a `CertStatus` — every
call to `check_certificate_status` raises `AttributeError`, so an
evaluation error crashes the check pass (caught in `run_once`) instead of
yielding a status with `needs_renewal = true`; independently, the status
updates of `check_and_renew_certificates` write `error_message` without
ever updating `renewal_reason` — a failed renewal stores the non-empty
message `Certificate renewal failed` and a verified success clears the
message — so the claimed equivalence would not survive a renewal attempt
in any case. -/
theorem error_message_update_semantics (svc : Option ServiceCtx) (now : Int)
    (crlP : Bool) (revCheck : ParsedCert → RevocationStatus)
    (cfg : CertificateConfig) (loaded : Option ParsedCert)
    (s : CertificateStatus) (o : RenewalOutcome) :
    check_certificate_status svc now crlP revCheck cfg loaded =
      Except.error "AttributeError" ∧
    (updateStatusAfterRenewal s o).renewal_reason = s.renewal_reason ∧
    (updateStatusAfterRenewal s RenewalOutcome.renewFailed).error_message =
      some "Certificate renewal failed" ∧
    (updateStatusAfterRenewal s RenewalOutcome.renewedVerified).error_message =
      none := by
  refine ⟨?_, ?_, rfl, rfl⟩
  · cases loaded <;> rfl
  · cases o <;> rfl

/-! ## Claim C10 -/

/-- Claim C10: CRL downloads are performed with verification disabled exactly
when `root_cert_path` is unset (empty) or no file exists there at manager
construction; otherwise every download is pinned to that root certificate
file, since the session is configured once in the constructor. -/
theorem crl_tls_verification (root : String) (pathExists : String → Bool) :
    (download_crl_tls_verify (crl_manager_session_verify root pathExists) =
        SSLVerify.disabled ↔ (root = "" ∨ pathExists root = false)) ∧
    (root ≠ "" → pathExists root = true →
      download_crl_tls_verify (crl_manager_session_verify root pathExists) =
        SSLVerify.pinned root) := by
  unfold download_crl_tls_verify crl_manager_session_verify
  by_cases h1 : root = "" <;> by_cases h2 : pathExists root = true <;>
    simp [h1, h2]

/-- Witness for C10: a present root certificate pins verification. -/
theorem crl_tls_verification_witness :
    download_crl_tls_verify
        (crl_manager_session_verify "certs/root_ca.crt" (fun _ => true)) =
      SSLVerify.pinned "certs/root_ca.crt" :=
  (crl_tls_verification "certs/root_ca.crt" (fun _ => true)).2 (by decide) rfl

/-! ## File-system helper lemmas -/

/-- Pointwise behaviour of a file write. -/
@[simp]
lemma FS.update_apply (fs : FS) (p : String) (b : Bytes) (q : String) :
    FS.update fs p b q = if q = p then some b else fs q := rfl

/-- Pointwise behaviour of a file delete. -/
@[simp]
lemma FS.erase_apply (fs : FS) (p : String) (q : String) :
    FS.erase fs p q = if q = p then none else fs q := rfl

/-- A path never equals itself with the `.backup` suffix appended. -/
lemma backup_path_ne (p : String) : ¬ (p ++ ".backup" = p) := by
  intro h
  have hl := congrArg String.length h
  rw [String.length_append] at hl
  have : (".backup" : String).length = 7 := rfl
  omega

/-- Appending the `.backup` suffix is injective on paths. -/
lemma backup_path_inj {p q : String} (h : p ++ ".backup" = q ++ ".backup") :
    p = q := by
  have hd : p.data ++ (".backup" : String).data = q.data ++ (".backup" : String).data := by
    have := congrArg String.data h
    simpa using this
  have hpq := (List.append_inj' hd rfl).1
  cases p
  cases q
  exact congrArg String.mk hpq

/-- Restoring both artifacts from freshly written backups reproduces the
original bytes at both paths, whatever the intermediate state was. -/
lemma restore_roundtrip (fs fs1 : FS) (cp kp : String) (cb kb : Bytes)
    (hc : fs cp = some cb) (hk : fs kp = some kb) :
    FS.update (FS.update fs1 cp cb) kp kb cp = fs cp ∧
    FS.update (FS.update fs1 cp cb) kp kb kp = fs kp := by
  constructor
  · by_cases h : cp = kp
    · subst h
      simp [hk]
    · simp [h, hc]
  · simp [hk]

/-! ## Claim C3 -/

/-- Claim C3: whenever a renewal attempt returns failure — through the EST
adapter `renew_certificate` or the token adapter `_renew_certificate_jwk` —
the bytes at `cert_path` and `key_path` after the call are byte-identical to
their pre-call contents (the JWK path restores both artifacts from the
backups it took before invoking the CLI). -/
theorem failed_renewal_preserves_artifacts (fs : FS) (cfg : CertificateConfig)
    (keyPemRe keyPemEnroll : Bytes) (rePost enrollPost : HttpResult)
    (renewOut : StepRenewOutcome) (tokenOk : Bool) (req : StepRequestOutcome) :
    ((est_renew_certificate fs cfg keyPemRe keyPemEnroll rePost enrollPost).1 = false →
      (est_renew_certificate fs cfg keyPemRe keyPemEnroll rePost enrollPost).2 cfg.cert_path = fs cfg.cert_path ∧
      (est_renew_certificate fs cfg keyPemRe keyPemEnroll rePost enrollPost).2 cfg.key_path = fs cfg.key_path) ∧
    ((renew_certificate_jwk fs cfg renewOut tokenOk req).1 = false →
      (renew_certificate_jwk fs cfg renewOut tokenOk req).2 cfg.cert_path = fs cfg.cert_path ∧
      (renew_certificate_jwk fs cfg renewOut tokenOk req).2 cfg.key_path = fs cfg.key_path) := by
  constructor
  · unfold est_renew_certificate enroll_certificate
    cases hc : fs cfg.cert_path with
    | none =>
      cases enrollPost with
      | exception => exact fun _ => ⟨hc, rfl⟩
      | response st body =>
        by_cases hst : st = 200 <;> simp [hst, hc]
    | some cur =>
      cases rePost with
      | exception => exact fun _ => ⟨hc, rfl⟩
      | response st body =>
        by_cases hst : st = 200 <;> simp [hst, hc]
  · unfold renew_certificate_jwk request_certificate_jwk
    cases hc : fs cfg.cert_path with
    | none => exact fun _ => ⟨hc, rfl⟩
    | some cb =>
      cases hk : fs cfg.key_path with
      | none => exact fun _ => ⟨hc, hk⟩
      | some kb =>
        by_cases hrs : renewOut.success <;> simp only [hrs]
        · simp
        · have hr := restore_roundtrip fs
            (FS.update (FS.update fs (cfg.cert_path ++ ".backup") cb)
              (cfg.key_path ++ ".backup") kb)
            cfg.cert_path cfg.key_path cb kb hc hk
          by_cases ht : tokenOk <;> by_cases hq : req.success <;>
            simp [ht, hq, hr.1, hr.2, hc, hk] <;>
            (intro hck; rw [hck, hk] at hc; exact Option.some.inj hc)

/-- Witness for C3: a concrete EST renewal failing with HTTP 500 leaves both
artifacts untouched. -/
theorem failed_renewal_preserves_artifacts_witness :
    (est_renew_certificate fsWeb cfgWeb [3] [4] (HttpResult.response 500 [9])
        HttpResult.exception).2 cfgWeb.cert_path = fsWeb cfgWeb.cert_path ∧
    (est_renew_certificate fsWeb cfgWeb [3] [4] (HttpResult.response 500 [9])
        HttpResult.exception).2 cfgWeb.key_path = fsWeb cfgWeb.key_path :=
  (failed_renewal_preserves_artifacts fsWeb cfgWeb [3] [4]
    (HttpResult.response 500 [9]) HttpResult.exception ⟨true, []⟩ true
    ⟨true, [], []⟩).1 (by decide)

/-! ## Claim C4 -/

/-- Claim C4 counterexample: a successful in-place JWK renewal deletes the
backup files, so right after this successful renewal nothing is stored at
`cert_path + ".backup"`. -/
theorem backup_after_success_counterexample :
    (renew_certificate_jwk fsWeb cfgWeb ⟨true, [9]⟩ false ⟨false, [], []⟩).1 = true ∧
    (renew_certificate_jwk fsWeb cfgWeb ⟨true, [9]⟩ false ⟨false, [], []⟩).2
      (cfgWeb.cert_path ++ ".backup") = none :=
  ⟨by decide, by decide⟩

/-- Claim C4 as amended: in the EST adapter, a successful re-enrollment
stores the pre-renewal certificate bytes at `cert_path + ".backup"` and any
failed attempt leaves that backup untouched (so it persists until the next
success); in the JWK adapter the backup survives a run only when renewal
succeeded through the fresh-request fallback — a successful in-place
`step ca renew` deletes both backup files.  The key path is assumed not to
collide with the certificate backup path. -/
theorem backup_semantics (fs : FS) (cfg : CertificateConfig)
    (keyPemRe keyPemEnroll cur kb body : Bytes) (enrollPost : HttpResult)
    (renewOut : StepRenewOutcome) (tokenOk : Bool) (req : StepRequestOutcome)
    (hkp : cfg.key_path ≠ cfg.cert_path ++ ".backup") :
    (fs cfg.cert_path = some cur →
      (est_renew_certificate fs cfg keyPemRe keyPemEnroll
          (HttpResult.response 200 body) enrollPost).1 = true ∧
      (est_renew_certificate fs cfg keyPemRe keyPemEnroll
          (HttpResult.response 200 body) enrollPost).2
        (cfg.cert_path ++ ".backup") = some cur) ∧
    (∀ rePost,
      (est_renew_certificate fs cfg keyPemRe keyPemEnroll rePost enrollPost).1 = false →
      (est_renew_certificate fs cfg keyPemRe keyPemEnroll rePost enrollPost).2
        (cfg.cert_path ++ ".backup") = fs (cfg.cert_path ++ ".backup")) ∧
    (renewOut.success = true → fs cfg.cert_path = some cur → fs cfg.key_path = some kb →
      (renew_certificate_jwk fs cfg renewOut tokenOk req).1 = true ∧
      (renew_certificate_jwk fs cfg renewOut tokenOk req).2
        (cfg.cert_path ++ ".backup") = none) ∧
    (renewOut.success = false → tokenOk = true → req.success = true →
      fs cfg.cert_path = some cur → fs cfg.key_path = some kb →
      (renew_certificate_jwk fs cfg renewOut tokenOk req).1 = true ∧
      (renew_certificate_jwk fs cfg renewOut tokenOk req).2
        (cfg.cert_path ++ ".backup") = some cur) := by
  have hkp2 : ¬ (cfg.cert_path ++ ".backup" = cfg.key_path) := fun h => hkp h.symm
  refine ⟨?_, ?_, ?_, ?_⟩
  · intro hc
    unfold est_renew_certificate
    rw [hc]
    simp [hkp2, backup_path_ne]
  · intro rePost h
    revert h
    unfold est_renew_certificate enroll_certificate
    cases hc : fs cfg.cert_path with
    | none =>
      cases enrollPost with
      | exception => exact fun _ => rfl
      | response st body2 =>
        by_cases hst : st = 200 <;> simp [hst]
    | some cur2 =>
      cases rePost with
      | exception => exact fun _ => rfl
      | response st body2 =>
        by_cases hst : st = 200 <;> simp [hst]
  · intro hrs hc hk
    unfold renew_certificate_jwk
    rw [hc, hk]
    simp [hrs]
  · intro hrs ht hq hc hk
    unfold renew_certificate_jwk request_certificate_jwk
    rw [hc, hk]
    simp only [hrs, ht, hq, if_true, if_false, Bool.false_eq_true, ite_false, ite_true]
    by_cases hbb : cfg.cert_path ++ ".backup" = cfg.key_path ++ ".backup"
    · have hck : cfg.cert_path = cfg.key_path := backup_path_inj hbb
      rw [hck] at hc
      rw [hc] at hk
      simp [hkp2, backup_path_ne, hbb, hk]
      intro h
      rw [hck] at h
      exact absurd h (backup_path_ne _)
    · simp [hkp2, backup_path_ne, hbb]

/-- Witness for C4 as amended: a concrete successful EST renewal stores the
old certificate bytes at the backup path. -/
theorem backup_semantics_witness :
    (est_renew_certificate fsWeb cfgWeb [3] [4] (HttpResult.response 200 [9])
        HttpResult.exception).2 (cfgWeb.cert_path ++ ".backup") = some [1] :=
  ((backup_semantics fsWeb cfgWeb [3] [4] [1] [2] [9] HttpResult.exception
    ⟨true, []⟩ true ⟨true, [], []⟩ (by decide)).1 (by decide)).2

/-! ## CRL manager helper lemmas -/

/-- The CRL returned by `refresh_crl` depends on the manager state only
through the two dictionary entries for the refreshed URL. -/
lemma refresh_crl_crl_congr (p : Bytes → Option CRL) (n : Option Bytes)
    (f : Option CRL) (st st0 : CRLMState) (u : String) (now : Int)
    (h1 : st.crlCache u = st0.crlCache u)
    (h2 : st.lastDownloadTime u = st0.lastDownloadTime u) :
    (refresh_crl p n f st u now).crl = (refresh_crl p n f st0 u now).crl := by
  unfold refresh_crl refresh_crl_download
  rw [h1, h2]
  (repeat' split) <;> rfl

/-- A `refresh_crl` call only writes the dictionary entries of the URL it
refreshes: entries of any other key are unchanged. -/
lemma refresh_crl_frame (p : Bytes → Option CRL) (n : Option Bytes)
    (f : Option CRL) (st : CRLMState) (v u : String) (now : Int)
    (huv : u ≠ v) :
    (refresh_crl p n f st v now).state.crlCache u = st.crlCache u ∧
    (refresh_crl p n f st v now).state.lastDownloadTime u = st.lastDownloadTime u := by
  constructor <;> (
    unfold refresh_crl refresh_crl_download
    (repeat' split) <;> simp [updateMap, huv])

/-- A `refresh_crl` call that reached the network behaves as its
download-and-fallback tail. -/
lemma refresh_crl_of_network (p : Bytes → Option CRL) (n : Option Bytes)
    (f : Option CRL) (st : CRLMState) (u : String) (now : Int)
    (h : (refresh_crl p n f st u now).networkAttempted = true) :
    refresh_crl p n f st u now = refresh_crl_download p n f st u now := by
  revert h
  unfold refresh_crl
  (repeat' split) <;> simp

/-- A download that succeeds and parses stamps the download time, caches the
parsed CRL, and returns it. -/
lemma refresh_crl_download_success (p : Bytes → Option CRL) (data : Bytes)
    (f : Option CRL) (st : CRLMState) (u : String) (now : Int) (crl : CRL)
    (hp : p data = some crl) :
    refresh_crl_download p (some data) f st u now =
      ⟨some crl,
        ⟨updateMap st.crlCache u crl, updateMap st.lastDownloadTime u now⟩,
        true⟩ := by
  simp only [refresh_crl_download, hp]

/-- Characterization of the revocation-check loop over an arbitrary URL
sequence: the first URL (in sequence order) whose CRL can be obtained and
lists the serial determines the returned status, every URL before it is
consulted and no URL after it is; if no URL provides evidence, the verdict
is not revoked and every URL is consulted.  Hits are evaluated against the
initial state `st0`; the running state `st` must agree with `st0` on the
pending URLs, which the loop preserves because refreshes write only their
own key. -/
lemma checkCrlLoop_spec (p : Bytes → Option CRL) (n : String → Option Bytes)
    (f : String → Option CRL) (now : Int) (serial : Nat) (st0 : CRLMState) :
    ∀ (order : List String) (st : CRLMState), order.Nodup →
    (∀ v ∈ order, st.crlCache v = st0.crlCache v ∧
      st.lastDownloadTime v = st0.lastDownloadTime v) →
    (match order.find? (urlHit p n f st0 now serial) with
    | some u => ∃ e, urlHitEntry p n f st0 now serial u = some e ∧
        (checkCrlLoop p n f now serial st order).1 =
          ⟨true, some e.revocationDate, some (e.reasonExt.getD "Unspecified"),
            some u, now⟩ ∧
        (checkCrlLoop p n f now serial st order).2.2 =
          order.takeWhile (fun v => !(urlHit p n f st0 now serial v)) ++ [u]
    | none =>
        (checkCrlLoop p n f now serial st order).1 = ⟨false, none, none, none, now⟩ ∧
        (checkCrlLoop p n f now serial st order).2.2 = order) := by
  intro order
  induction order with
  | nil =>
    intro st _ _
    simp [checkCrlLoop]
  | cons u rest ih =>
    intro st hnd hag
    have hagu := hag u (List.mem_cons_self u rest)
    have hcrl : (refresh_crl p (n u) (f u) st u now).crl =
        urlLoaded p n f st0 now u :=
      refresh_crl_crl_congr p (n u) (f u) st st0 u now hagu.1 hagu.2
    have hnd2 := List.nodup_cons.mp hnd
    have hrest : ∀ v ∈ rest,
        (refresh_crl p (n u) (f u) st u now).state.crlCache v = st0.crlCache v ∧
        (refresh_crl p (n u) (f u) st u now).state.lastDownloadTime v =
          st0.lastDownloadTime v := by
      intro v hv
      have hvu : v ≠ u := by
        rintro rfl
        exact hnd2.1 hv
      have hfr := refresh_crl_frame p (n u) (f u) st u v now hvu
      have hagv := hag v (List.mem_cons_of_mem u hv)
      exact ⟨hfr.1.trans hagv.1, hfr.2.trans hagv.2⟩
    have ihr := ih (refresh_crl p (n u) (f u) st u now).state hnd2.2 hrest
    by_cases hu : urlHit p n f st0 now serial u
    · rw [List.find?_cons_of_pos _ hu]
      obtain ⟨e, he⟩ := Option.isSome_iff_exists.mp hu
      refine ⟨e, he, ?_, ?_⟩
      · cases hload : urlLoaded p n f st0 now u with
        | none =>
          simp only [urlHitEntry, hload] at he
          exact Option.noConfusion he
        | some crl =>
          simp only [urlHitEntry, hload] at he
          simp only [checkCrlLoop, hcrl, hload, he]
      · cases hload : urlLoaded p n f st0 now u with
        | none =>
          simp only [urlHitEntry, hload] at he
          exact Option.noConfusion he
        | some crl =>
          simp only [urlHitEntry, hload] at he
          simp [checkCrlLoop, hcrl, hload, he, List.takeWhile_cons, hu]
    · rw [List.find?_cons_of_neg _ hu]
      have hloop : (checkCrlLoop p n f now serial st (u :: rest)).1 =
          (checkCrlLoop p n f now serial
            (refresh_crl p (n u) (f u) st u now).state rest).1 ∧
          (checkCrlLoop p n f now serial st (u :: rest)).2.2 =
          u :: (checkCrlLoop p n f now serial
            (refresh_crl p (n u) (f u) st u now).state rest).2.2 := by
        cases hload : urlLoaded p n f st0 now u with
        | none =>
          simp only [checkCrlLoop, hcrl, hload]
          exact ⟨trivial, trivial⟩
        | some crl =>
          have hfind : crl.entries.find? (fun e => e.serialNumber == serial) = none := by
            simp only [urlHit, urlHitEntry, hload] at hu
            cases hfe : crl.entries.find? (fun e => e.serialNumber == serial) with
            | none => rfl
            | some e => rw [hfe] at hu; simp at hu
          simp only [checkCrlLoop, hcrl, hload, hfind]
          exact ⟨trivial, trivial⟩
      rw [hloop.1, hloop.2]
      have htw : (u :: rest).takeWhile
          (fun v => !(urlHit p n f st0 now serial v)) =
          u :: rest.takeWhile (fun v => !(urlHit p n f st0 now serial v)) := by
        simp [List.takeWhile_cons, hu]
      cases hf : rest.find? (urlHit p n f st0 now serial) with
      | some w =>
        rw [hf] at ihr
        obtain ⟨e, he, hst, hcs⟩ := ihr
        refine ⟨e, he, hst, ?_⟩
        rw [hcs, htw]
        rfl
      | none =>
        rw [hf] at ihr
        exact ⟨ihr.1, by rw [ihr.2]⟩

/-! ## Claim C6 -/

/-- Claim C6: once `refresh_crl` succeeds via a network download, any
subsequent call for the same URL within 60 seconds performs no network call,
returns the in-memory parsed CRL, and leaves the manager state unchanged
(so one evaluation pass consults each CRL source at most once); refreshes of
other URLs in between do not disturb the two cache entries the window
depends on. -/
theorem refresh_crl_coalescing (parse parse2 : Bytes → Option CRL)
    (net2 : Option Bytes) (fileCrl fileCrl2 : Option CRL) (st st2 : CRLMState)
    (url : String) (t0 t1 : Int) (data : Bytes) (crl : CRL)
    (hparse : parse data = some crl)
    (hnet : (refresh_crl parse (some data) fileCrl st url t0).networkAttempted = true)
    (hwin : t1 - t0 < 60)
    (hc : st2.crlCache url =
      (refresh_crl parse (some data) fileCrl st url t0).state.crlCache url)
    (hl : st2.lastDownloadTime url =
      (refresh_crl parse (some data) fileCrl st url t0).state.lastDownloadTime url) :
    (refresh_crl parse (some data) fileCrl st url t0).crl = some crl ∧
    (refresh_crl parse2 net2 fileCrl2 st2 url t1).networkAttempted = false ∧
    (refresh_crl parse2 net2 fileCrl2 st2 url t1).crl = some crl ∧
    (refresh_crl parse2 net2 fileCrl2 st2 url t1).state = st2 ∧
    (∀ p3 n3 f3 v now3, v ≠ url →
      (refresh_crl p3 n3 f3 st2 v now3).state.crlCache url = st2.crlCache url ∧
      (refresh_crl p3 n3 f3 st2 v now3).state.lastDownloadTime url =
        st2.lastDownloadTime url) := by
  have hr1 : refresh_crl parse (some data) fileCrl st url t0 =
      ⟨some crl,
        ⟨updateMap st.crlCache url crl, updateMap st.lastDownloadTime url t0⟩,
        true⟩ :=
    (refresh_crl_of_network parse (some data) fileCrl st url t0 hnet).trans
      (refresh_crl_download_success parse data fileCrl st url t0 crl hparse)
  have hcc : st2.crlCache url = some crl := by
    rw [hc, hr1]; simp [updateMap]
  have hll : st2.lastDownloadTime url = some t0 := by
    rw [hl, hr1]; simp [updateMap]
  have hr2 : refresh_crl parse2 net2 fileCrl2 st2 url t1 = ⟨some crl, st2, false⟩ := by
    unfold refresh_crl
    rw [hll]
    simp [hwin, hcc]
  exact ⟨by rw [hr1], by rw [hr2], by rw [hr2], by rw [hr2],
    fun p3 n3 f3 v now3 hv =>
      refresh_crl_frame p3 n3 f3 st2 v url now3 (Ne.symm hv)⟩

/-- Witness for C6: after one concrete successful download, a second call 30
seconds later serves from memory without touching the network. -/
theorem refresh_crl_coalescing_witness :
    (refresh_crl parseNone none none
        (refresh_crl parseOne (some [1]) none emptyCRLMState "a" 0).state
        "a" 30).networkAttempted = false ∧
    (refresh_crl parseNone none none
        (refresh_crl parseOne (some [1]) none emptyCRLMState "a" 0).state
        "a" 30).crl = some crlA :=
  ⟨(refresh_crl_coalescing parseOne parseNone none none none emptyCRLMState
      (refresh_crl parseOne (some [1]) none emptyCRLMState "a" 0).state
      "a" 0 30 [1] crlA (by decide) (by decide) (by decide) rfl rfl).2.1,
   (refresh_crl_coalescing parseOne parseNone none none none emptyCRLMState
      (refresh_crl parseOne (some [1]) none emptyCRLMState "a" 0).state
      "a" 0 30 [1] crlA (by decide) (by decide) (by decide) rfl rfl).2.2.1⟩

/-! ## Claim C7 -/

/-- Claim C7: when the download fails, `refresh_crl` returns the in-memory
cached CRL if one exists, else the on-disk cached copy if one parses, else
None; and a source that yields no CRL contributes no revocation evidence:
the revocation loop consults every URL of the sequence and, when none of
them yields a CRL listing the serial, the verdict is not revoked — a fetch
failure can never set `is_revoked`. -/
theorem refresh_crl_fallback_no_evidence (parse : Bytes → Option CRL)
    (fCrl : Option CRL) (st1 : CRLMState) (url : String) (now1 : Int)
    (net : String → Option Bytes) (fileCrl : String → Option CRL)
    (st : CRLMState) (cert : ParsedCert) (order : List String) (now : Int)
    (hnd : order.Nodup)
    (hfail : ∀ u ∈ order, urlLoaded parse net fileCrl st now u = none) :
    ((refresh_crl parse none fCrl st1 url now1).crl =
      match st1.crlCache url with
      | some c => some c
      | none => fCrl) ∧
    (check_certificate_revocation parse net fileCrl true cert order st now).1.is_revoked = false ∧
    (check_certificate_revocation parse net fileCrl true cert order st now).2.2 = order := by
  have hfind : order.find? (urlHit parse net fileCrl st now cert.serialNumber) = none := by
    rw [List.find?_eq_none]
    intro u hu
    simp [urlHit, urlHitEntry, hfail u hu]
  have hspec := checkCrlLoop_spec parse net fileCrl now cert.serialNumber st
    order st hnd (fun v _ => ⟨rfl, rfl⟩)
  rw [hfind] at hspec
  have hred : check_certificate_revocation parse net fileCrl true cert order st now =
      checkCrlLoop parse net fileCrl now cert.serialNumber st order := rfl
  refine ⟨?_, ?_, ?_⟩
  · unfold refresh_crl refresh_crl_download
    (repeat' split) <;> simp_all
  · rw [hred, hspec.1]
  · rw [hred, hspec.2]

/-- Witness for C7 at concrete inputs: fallback to the file copy, and a pass
in which every source fails reports not revoked. -/
theorem refresh_crl_fallback_no_evidence_witness :
    ((refresh_crl parseNone none (some crlA) emptyCRLMState "a" 0).crl =
      match emptyCRLMState.crlCache "a" with
      | some c => some c
      | none => some crlA) ∧
    (check_certificate_revocation parseNone netNone fileNone true certSerial5
      ["a", "b"] emptyCRLMState 0).1.is_revoked = false :=
  ⟨(refresh_crl_fallback_no_evidence parseNone (some crlA) emptyCRLMState "a" 0
      netNone fileNone emptyCRLMState certSerial5 ["a", "b"] 0 (by decide)
      (by decide)).1,
   (refresh_crl_fallback_no_evidence parseNone (some crlA) emptyCRLMState "a" 0
      netNone fileNone emptyCRLMState certSerial5 ["a", "b"] 0 (by decide)
      (by decide)).2.1⟩

/-! ## Claim C8 -/

/-- Claim C8 counterexample: the code iterates over a Python set, whose
iteration order is not fixed, not the configured-then-CDP sequence.  With
configured URL a and CDP URL b, both listing serial 5, the sequence b, a is
as legitimate an iteration of the set as a, b; it reports source b after
consulting only b, while the claimed order reports source a, so the result
is not the one determined by configuration-then-CDP order. -/
theorem revocation_order_counterexample :
    isEnumOf ["b", "a"] ["a"] certSerial5.cdpUrls ∧
    isEnumOf ["a", "b"] ["a"] certSerial5.cdpUrls ∧
    (check_certificate_revocation parseNone netNone fileAB true certSerial5
      ["a", "b"] emptyCRLMState 0).1.crl_source = some "a" ∧
    (check_certificate_revocation parseNone netNone fileAB true certSerial5
      ["b", "a"] emptyCRLMState 0).1.crl_source = some "b" ∧
    (check_certificate_revocation parseNone netNone fileAB true certSerial5
      ["b", "a"] emptyCRLMState 0).2.2 = ["b"] ∧
    (check_certificate_revocation parseNone netNone fileAB true certSerial5
        ["b", "a"] emptyCRLMState 0).1 ≠
      (check_certificate_revocation parseNone netNone fileAB true certSerial5
        ["a", "b"] emptyCRLMState 0).1 :=
  ⟨by decide, by decide, by decide, by decide, by decide, by decide⟩

/-- Claim C8 as amended: the URLs are gathered into an unordered,
deduplicated set (union of configured URLs and the CDPs); whatever iteration
sequence the set yields, the first URL in that sequence whose CRL lists the
serial wins and short-circuits the loop (URLs after it are not consulted),
and whether the certificate is reported revoked does not depend on the
iteration order — it holds exactly when some URL of the union provides
evidence. -/
theorem revocation_set_semantics (parse : Bytes → Option CRL)
    (net : String → Option Bytes) (fileCrl : String → Option CRL)
    (configUrls : List String) (cert : ParsedCert) (st : CRLMState)
    (now : Int) (order order2 : List String)
    (h1 : isEnumOf order configUrls cert.cdpUrls)
    (h2 : isEnumOf order2 configUrls cert.cdpUrls) :
    ((check_certificate_revocation parse net fileCrl true cert order st now).1.is_revoked = true ↔
      ∃ u, (u ∈ configUrls ∨ u ∈ cert.cdpUrls) ∧
        urlHit parse net fileCrl st now cert.serialNumber u = true) ∧
    ((check_certificate_revocation parse net fileCrl true cert order st now).1.is_revoked =
      (check_certificate_revocation parse net fileCrl true cert order2 st now).1.is_revoked) ∧
    (∀ u, order.find? (urlHit parse net fileCrl st now cert.serialNumber) = some u →
      (check_certificate_revocation parse net fileCrl true cert order st now).1.crl_source = some u ∧
      (check_certificate_revocation parse net fileCrl true cert order st now).2.2 =
        order.takeWhile (fun v => !(urlHit parse net fileCrl st now cert.serialNumber v)) ++ [u]) := by
  have key : ∀ ord : List String, isEnumOf ord configUrls cert.cdpUrls →
      ((check_certificate_revocation parse net fileCrl true cert ord st now).1.is_revoked = true ↔
        ∃ u, (u ∈ configUrls ∨ u ∈ cert.cdpUrls) ∧
          urlHit parse net fileCrl st now cert.serialNumber u = true) := by
    intro ord hord
    have hspec := checkCrlLoop_spec parse net fileCrl now cert.serialNumber st
      ord st hord.1 (fun v _ => ⟨rfl, rfl⟩)
    have hred : check_certificate_revocation parse net fileCrl true cert ord st now =
        checkCrlLoop parse net fileCrl now cert.serialNumber st ord := rfl
    rw [hred]
    cases hf : ord.find? (urlHit parse net fileCrl st now cert.serialNumber) with
    | some u =>
      rw [hf] at hspec
      obtain ⟨e, he, hst, hcs⟩ := hspec
      rw [hst]
      constructor
      · intro _
        exact ⟨u, hord.2.1 u (List.mem_of_find?_eq_some hf), List.find?_some hf⟩
      · intro _
        rfl
    | none =>
      rw [hf] at hspec
      rw [hspec.1]
      constructor
      · intro h
        exact absurd h (by simp)
      · rintro ⟨u, hmem, hhit⟩
        have hmem2 : u ∈ ord := by
          cases hmem with
        | inl h => exact hord.2.2.1 u h
        | inr h => exact hord.2.2.2 u h
        exact absurd hhit (List.find?_eq_none.mp hf u hmem2)
  refine ⟨key order h1, ?_, ?_⟩
  · have e1 := key order h1
    have e2 := key order2 h2
    by_cases hp : ∃ u, (u ∈ configUrls ∨ u ∈ cert.cdpUrls) ∧
        urlHit parse net fileCrl st now cert.serialNumber u = true
    · exact (e1.mpr hp).trans (e2.mpr hp).symm
    · have b1 : (check_certificate_revocation parse net fileCrl true cert order st now).1.is_revoked = false := by
        cases hb : (check_certificate_revocation parse net fileCrl true cert order st now).1.is_revoked with
        | false => rfl
        | true => exact absurd (e1.mp hb) hp
      have b2 : (check_certificate_revocation parse net fileCrl true cert order2 st now).1.is_revoked = false := by
        cases hb : (check_certificate_revocation parse net fileCrl true cert order2 st now).1.is_revoked with
        | false => rfl
        | true => exact absurd (e2.mp hb) hp
      rw [b1, b2]
  · intro u hf
    have hspec := checkCrlLoop_spec parse net fileCrl now cert.serialNumber st
      order st h1.1 (fun v _ => ⟨rfl, rfl⟩)
    rw [hf] at hspec
    obtain ⟨e, he, hst, hcs⟩ := hspec
    have hred : check_certificate_revocation parse net fileCrl true cert order st now =
        checkCrlLoop parse net fileCrl now cert.serialNumber st order := rfl
    exact ⟨by rw [hred, hst], by rw [hred, hcs]⟩

/-- Witness for C8 as amended at concrete inputs. -/
theorem revocation_set_semantics_witness :
    (check_certificate_revocation parseNone netNone fileAB true certSerial5
        ["a", "b"] emptyCRLMState 0).1.is_revoked = true ↔
      ∃ u, (u ∈ ["a"] ∨ u ∈ certSerial5.cdpUrls) ∧
        urlHit parseNone netNone fileAB emptyCRLMState 0
          certSerial5.serialNumber u = true :=
  (revocation_set_semantics parseNone netNone fileAB ["a"] certSerial5
    emptyCRLMState 0 ["a", "b"] ["b", "a"] (by decide) (by decide)).1

end EcaPoc
